import Mathlib

/-!
Verification development for the `aws-iot-device-sdk-rust` adapter crate
(`src/client.rs`).  The crate is a thin shim over the `rumqttc` MQTT client:
it builds TLS connection options from a settings bundle, loads three PEM
files, forwards `subscribe`/`publish` calls, and provides default event
dispatch loops.  The definitions below are a shallow embedding of that file:
the wrapped library's values (options, client, connection, event loop,
channel requests) are modelled as explicit data, file reads are modelled by a
map from paths to optional byte strings, and the dispatch loops are modelled
as functions from a (finite) list of received notifications to the list of
callbacks they invoke, in order.
-/

namespace AwsIot

/-- Quality-of-service levels of `rumqttc::QoS`. -/
inductive QoS
| atMostOnce
| atLeastOnce
| exactlyOnce
deriving DecidableEq, Repr

/-- Model of `rumqttc::Publish`: an MQTT publish packet.  Payload bytes are modelled
as a list of naturals. -/
structure Publish where
  dup : Bool
  qos : QoS
  retain : Bool
  topic : String
  pkid : Nat
  payload : List Nat
deriving DecidableEq, Repr

/-- Model of `rumqttc::Publish::new(topic, qos, payload)`: fresh packet with
`dup = false`, `retain = false`, `pkid = 0`. -/
def Publish.new (topic : String) (qos : QoS) (payload : List Nat) : Publish :=
  { dup := false, qos := qos, retain := false, topic := topic, pkid := 0,
    payload := payload }

/-- Model of `rumqttc::PubAck`: acknowledgement of a QoS-1 publish, carrying the
packet identifier. -/
structure PubAck where
  pkid : Nat
deriving DecidableEq, Repr

/-- Incoming packets as matched by `client.rs` (`rumqttc::Incoming`).
Besides the three variants the crate inspects (`Publish`, `Connected`,
`PubAck`), representative further variants stand for the packets the crate
leaves to the wildcard arm. -/
inductive Incoming
| connected
| publish (message : Publish)
| pubAck (message : PubAck)
| subAck (pkid : Nat)
| pingResp
| disconnect
deriving DecidableEq, Repr

/-- Outgoing packets: the dispatch loops never inspect the second component
of a notification, so a single marker constructor suffices. -/
inductive Outgoing
| pkt
deriving DecidableEq, Repr

/-- Model of `rumqttc::ConnectionError`.  The only variant this crate itself produces
is the I/O wrapping of a failed credential-file read (via the `?` operator in
the constructors); `transport` stands for the library's other variants. -/
inductive ConnectionError
| io (path : String)
| transport
deriving DecidableEq, Repr

/-- One item yielded by `Connection::iter()` / `EventLoop::poll()`:
`Result<(Option<Incoming>, Option<Outgoing>), ConnectionError>`. -/
def Notification : Type :=
  Except ConnectionError (Option Incoming × Option Outgoing)

/-- A callback invocation recorded by a dispatch loop, in the order the
loop performs them. -/
inductive Callback
| onConnect
| onPublish (message : Publish)
| onPubAck (message : PubAck)
deriving DecidableEq, Repr

/-- The body of the `for` loop in `AWSEventHandler::start_event_listener`:
the callbacks invoked for one received notification.  The match arms are
transcribed from the source (the source's trailing `None => ()` arm is
unreachable behind its `_ => ()` arm; both land in the catch-all cases
here). -/
def dispatchBlocking (n : Notification) : List Callback :=
  match n with
  | Except.ok (some (Incoming.publish message), _) => [Callback.onPublish message]
  | Except.ok (some Incoming.connected, _) => [Callback.onConnect]
  | Except.ok _ => []
  | Except.error _ => []

/-- Model of `AWSEventHandler::start_event_listener` run over a finite notification
stream: the callbacks invoked, in order. -/
def start_event_listener : List Notification → List Callback
  | [] => []
  | n :: rest => dispatchBlocking n ++ start_event_listener rest

/-- The body of the `loop` in
`AWSAsyncEventHandler::start_async_event_listener`: the callbacks invoked
for one polled notification.  Identical to the blocking body except that
`PubAck` additionally invokes `on_puback`. -/
def dispatchAsync (n : Notification) : List Callback :=
  match n with
  | Except.ok (some (Incoming.publish message), _) => [Callback.onPublish message]
  | Except.ok (some Incoming.connected, _) => [Callback.onConnect]
  | Except.ok (some (Incoming.pubAck message), _) => [Callback.onPubAck message]
  | Except.ok _ => []
  | Except.error _ => []

/-- Model of `AWSAsyncEventHandler::start_async_event_listener` fed a finite sequence
of synthetic poll results: the callbacks invoked, in order. -/
def start_async_event_listener : List Notification → List Callback
  | [] => []
  | n :: rest => dispatchAsync n ++ start_async_event_listener rest

/-- Model of `rumqttc::MqttOptions`: the connection options the crate assembles.
Only the fields the crate sets are modelled. -/
structure MqttOptions where
  client_id : String
  broker_addr : String
  port : Nat
  ca : Option (List Nat)
  client_cert : Option (List Nat)
  client_key : Option (List Nat)
  keep_alive : Nat
deriving DecidableEq, Repr

/-- Model of `MqttOptions::new(id, host, port)`: no key material, library default
keep-alive (60 time-units) before the crate overrides it. -/
def MqttOptions.new (id : String) (host : String) (port : Nat) : MqttOptions :=
  { client_id := id, broker_addr := host, port := port, ca := none,
    client_cert := none, client_key := none, keep_alive := 60 }

/-- Model of `MqttOptions::set_ca`. -/
def MqttOptions.set_ca (o : MqttOptions) (ca : List Nat) : MqttOptions :=
  { o with ca := some ca }

/-- Model of `MqttOptions::set_client_auth`. -/
def MqttOptions.set_client_auth (o : MqttOptions) (cert key : List Nat) :
    MqttOptions :=
  { o with client_cert := some cert, client_key := some key }

/-- Model of `MqttOptions::set_keep_alive`. -/
def MqttOptions.set_keep_alive (o : MqttOptions) (secs : Nat) : MqttOptions :=
  { o with keep_alive := secs }

/-- The local file system, as seen by `std::fs::read`: a map from paths to
the file's bytes, `none` when the read fails (missing file, permission
denied). -/
def FS : Type := String → Option (List Nat)

/-- Model of `std::fs::read(path)` followed by the crate's `?`: a failed read is
wrapped into the `ConnectionError` the constructor returns. -/
def read (fs : FS) (path : String) : Except ConnectionError (List Nat) :=
  match fs path with
  | some bytes => Except.ok bytes
  | none => Except.error (ConnectionError.io path)

/-- Model of `rumqttc::Client`: the send-capable handle, recording the options and
request-queue capacity it was constructed with. -/
structure Client where
  opts : MqttOptions
  cap : Nat
deriving DecidableEq, Repr

/-- Model of `rumqttc::Connection`: the receive-capable side returned alongside the
client, recording the same construction arguments. -/
structure Connection where
  opts : MqttOptions
  cap : Nat
deriving DecidableEq, Repr

/-- Model of `rumqttc::Client::new(options, cap)`: yields the client/connection
pair. -/
def Client.new (o : MqttOptions) (cap : Nat) : Client × Connection :=
  ({ opts := o, cap := cap }, { opts := o, cap := cap })

/-- The crate's settings bundle `AWSIoTSettings`. -/
structure AWSIoTSettings where
  client_id : String
  ca_path : String
  client_cert_path : String
  client_key_path : String
  aws_iot_endpoint : String
deriving DecidableEq, Repr

/-- Model of `AWSIoTSettings::new`: stores the five strings. -/
def AWSIoTSettings.new (client_id ca_path client_cert_path client_key_path
    aws_iot_endpoint : String) : AWSIoTSettings :=
  { client_id := client_id, ca_path := ca_path,
    client_cert_path := client_cert_path,
    client_key_path := client_key_path,
    aws_iot_endpoint := aws_iot_endpoint }

/-- The blocking wrapper `AWSIoTClient`, owning the library client. -/
structure AWSIoTClient where
  client : Client
deriving DecidableEq, Repr

/-- Model of `AWSIoTClient::new(settings)`: reads the three credential files
(each `?`-propagating its failure), builds the options with port 8883 and
keep-alive 10, and constructs the wrapped client with capacity 10. -/
def AWSIoTClient.new (fs : FS) (settings : AWSIoTSettings) :
    Except ConnectionError (AWSIoTClient × Connection) := do
  let ca ← read fs settings.ca_path
  let cert ← read fs settings.client_cert_path
  let key ← read fs settings.client_key_path
  let mqtt_options :=
    (((MqttOptions.new settings.client_id settings.aws_iot_endpoint 8883).set_ca
        ca).set_client_auth cert key).set_keep_alive 10
  let (client, connection) := Client.new mqtt_options 10
  Except.ok ({ client := client }, connection)

/-- Model of `rumqttc::Subscribe::new(topic, qos)`: a subscribe request for one
topic. -/
structure Subscribe where
  topic : String
  qos : QoS
deriving DecidableEq, Repr

/-- Model of `rumqttc::Request`: the items carried by the event loop's request
channel (only the two variants this crate constructs are modelled in
full). -/
inductive Request
| publishReq (message : Publish)
| subscribeReq (message : Subscribe)
deriving DecidableEq, Repr

/-- Model of `rumqttc::EventLoop` as awaited from `EventLoop::new(options, cap)`,
recording its construction arguments. -/
structure EventLoop where
  opts : MqttOptions
  cap : Nat
deriving DecidableEq, Repr

/-- Model of `async_channel::Sender<Request>`: the sending half of the event loop's
request channel; identified by the event loop it feeds. -/
structure Sender where
  forLoop : MqttOptions × Nat
deriving DecidableEq, Repr

/-- Model of `EventLoop::new(options, cap).await`. -/
def EventLoop.new (o : MqttOptions) (cap : Nat) : EventLoop :=
  { opts := o, cap := cap }

/-- Model of `EventLoop::handle()`: the sender into this loop's request channel. -/
def EventLoop.handle (l : EventLoop) : Sender :=
  { forLoop := (l.opts, l.cap) }

/-- The concurrent wrapper `AWSIoTAsyncClient`, holding only the channel
sender. -/
structure AWSIoTAsyncClient where
  sender : Sender
deriving DecidableEq, Repr

/-- Model of `AWSIoTAsyncClient::new(client_id, ca_path, client_cert_path,
client_key_path, aws_iot_endpoint)`: same file reads and option values as
the blocking constructor, but the five parameters arrive as separate
strings, the event-loop construction is awaited, and the handle keeps only
the loop's channel sender. -/
def AWSIoTAsyncClient.new (fs : FS) (client_id ca_path client_cert_path
    client_key_path aws_iot_endpoint : String) :
    Except ConnectionError (AWSIoTAsyncClient × EventLoop) := do
  let ca ← read fs ca_path
  let cert ← read fs client_cert_path
  let key ← read fs client_key_path
  let mqtt_options :=
    (((MqttOptions.new client_id aws_iot_endpoint 8883).set_ca
        ca).set_client_auth cert key).set_keep_alive 10
  let eventloop := EventLoop.new mqtt_options 10
  let requests_tx := eventloop.handle
  Except.ok ({ sender := requests_tx }, eventloop)

/-- Shapes a constructor parameter can have in `client.rs`: the settings
bundle or a plain string. -/
inductive ParamKind
| settingsArg
| strArg
deriving DecidableEq, Repr

/-- Parameter list of `AWSIoTClient::new`, transcribed from its source
signature: one `AWSIoTSettings` value. -/
def AWSIoTClient.newParams : List ParamKind :=
  [ParamKind.settingsArg]

/-- Parameter list of `AWSIoTAsyncClient::new`, transcribed from its source
signature: five `&str` values. -/
def AWSIoTAsyncClient.newParams : List ParamKind :=
  [ParamKind.strArg, ParamKind.strArg, ParamKind.strArg, ParamKind.strArg,
   ParamKind.strArg]

/-- How a wrapper `subscribe`/`publish` call returns to its caller.  The
Rust methods return `()`, so there is no error constructor: either the call
returns normally or the `.unwrap()` aborts the process. -/
inductive Outcome
| ret
| panicked
deriving DecidableEq, Repr

/-- The observable effects a wrapper `subscribe`/`publish` call can
perform: a direct network call on the wrapped library's client, or a send
of a request onto the event loop's channel. -/
inductive Effect
| libSubscribe (topic : String) (qos : QoS)
| libPublish (topic : String) (qos : QoS) (retain : Bool) (payload : List Nat)
| chanSend (r : Request)
deriving DecidableEq, Repr

/-- Byte view of a `&str` payload, as `Into<Vec<u8>>` produces it. -/
def strBytes (s : String) : List Nat :=
  s.data.map Char.toNat

/-- Model of `AWSIoTClient::subscribe`: calls `self.client.subscribe(topic, qos)`
directly and `.unwrap()`s the send result.  `sendOk` is whether the wrapped
library's send succeeds; the pair returned is the trace of effects
performed and how the call returns. -/
def AWSIoTClient.subscribe (_self : AWSIoTClient) (topic_name : String)
    (qos : QoS) (sendOk : Bool) : List Effect × Outcome :=
  ([Effect.libSubscribe topic_name qos],
   if sendOk then Outcome.ret else Outcome.panicked)

/-- Model of `AWSIoTClient::publish`: calls
`self.client.publish(topic, qos, false, payload)` directly and `.unwrap()`s
the send result. -/
def AWSIoTClient.publish (_self : AWSIoTClient) (topic_name : String)
    (qos : QoS) (payload : String) (sendOk : Bool) : List Effect × Outcome :=
  ([Effect.libPublish topic_name qos false (strBytes payload)],
   if sendOk then Outcome.ret else Outcome.panicked)

/-- Model of `AWSIoTAsyncClient::subscribe`: builds `Subscribe::new(topic, qos)`,
sends `Request::Subscribe` onto the handle's channel, and `.unwrap()`s the
send result. -/
def AWSIoTAsyncClient.subscribe (_self : AWSIoTAsyncClient)
    (topic_name : String) (qos : QoS) (sendOk : Bool) :
    List Effect × Outcome :=
  ([Effect.chanSend (Request.subscribeReq { topic := topic_name, qos := qos })],
   if sendOk then Outcome.ret else Outcome.panicked)

/-- Model of `AWSIoTAsyncClient::publish`: builds
`Publish::new(topic, qos, payload)`, sends `Request::Publish` onto the
handle's channel, and `.unwrap()`s the send result. -/
def AWSIoTAsyncClient.publish (_self : AWSIoTAsyncClient)
    (topic_name : String) (qos : QoS) (payload : String) (sendOk : Bool) :
    List Effect × Outcome :=
  ([Effect.chanSend (Request.publishReq
      (Publish.new topic_name qos (strBytes payload)))],
   if sendOk then Outcome.ret else Outcome.panicked)

/-- Reduction of the `Except` monad's bind on a success, for unfolding the
constructors' do-notation. -/
theorem exceptBind_ok {ε α β : Type} (a : α) (f : α → Except ε β) :
    (Except.ok a >>= f) = f a := rfl

/-- Reduction of the `Except` monad's bind on a failure: the error
propagates, which is exactly the `?` operator's behaviour. -/
theorem exceptBind_error {ε α β : Type} (e : ε) (f : α → Except ε β) :
    ((Except.error e : Except ε α) >>= f) = Except.error e := rfl

/-- The blocking dispatch table as §4.4 of the specification words it:
errors are discarded, a payload-less notification is ignored, `Publish`
invokes `on_publish`, `Connected` invokes `on_connect`, and any other
incoming kind is ignored.  Comparator for the refinement claim C3; the
source-side table is `dispatchBlocking`. -/
def dispatchBlockingSpec (n : Notification) : List Callback :=
  match n with
  | Except.error _ => []
  | Except.ok (none, _) => []
  | Except.ok (some (Incoming.publish message), _) => [Callback.onPublish message]
  | Except.ok (some Incoming.connected, _) => [Callback.onConnect]
  | Except.ok (some _, _) => []

/-- Case shape of the blocking dispatch table: each notification yields no
callback, a single `on_publish`, or a single `on_connect`. -/
theorem dispatchBlocking_cases (n : Notification) :
    dispatchBlocking n = [] ∨
    (∃ m, dispatchBlocking n = [Callback.onPublish m]) ∨
    dispatchBlocking n = [Callback.onConnect] := by
  rcases n with e | ⟨inc, out⟩
  · exact Or.inl rfl
  · rcases inc with _ | inc
    · exact Or.inl rfl
    · rcases inc with _ | m | a | k | _ | _
      · exact Or.inr (Or.inr rfl)
      · exact Or.inr (Or.inl ⟨m, rfl⟩)
      · exact Or.inl rfl
      · exact Or.inl rfl
      · exact Or.inl rfl
      · exact Or.inl rfl

/-- The synthetic notification stream of claim C2:
`[Connected, Publish(topic="t", payload=[1,2,3]), PubAck(id=7)]`. -/
def c2Stream : List Notification :=
  [Except.ok (some Incoming.connected, none),
   Except.ok (some (Incoming.publish (Publish.new "t" QoS.atLeastOnce [1, 2, 3])), none),
   Except.ok (some (Incoming.pubAck { pkid := 7 }), none)]

/-- C2: fed the stream `[Connected, Publish(topic="t", payload=[1,2,3]),
PubAck(id=7)]`, the concurrent dispatch loop invokes exactly `on_connect`,
then `on_publish` with the payload `[1,2,3]`, then `on_puback` with packet
id 7, and nothing else (the list equality is exact). -/
theorem c2_async_dispatch_order :
    start_async_event_listener c2Stream =
      [Callback.onConnect,
       Callback.onPublish (Publish.new "t" QoS.atLeastOnce [1, 2, 3]),
       Callback.onPubAck { pkid := 7 }] := rfl

/-- C3: the blocking dispatch loop treats every notification exactly as
§4.4 describes — errors discarded, payload-less notifications ignored,
`Publish` invokes `on_publish`, `Connected` invokes `on_connect`, every
other incoming kind ignored (`dispatchBlocking = dispatchBlockingSpec`) —
and no notification terminates the loop: the listener always continues
with the rest of the stream. -/
theorem c3_blocking_dispatch_spec (n : Notification) (rest : List Notification) :
    dispatchBlocking n = dispatchBlockingSpec n ∧
    start_event_listener (n :: rest) =
      dispatchBlocking n ++ start_event_listener rest := by
  refine ⟨?_, rfl⟩
  rcases n with e | ⟨inc, out⟩
  · rfl
  · rcases inc with _ | inc
    · rfl
    · rcases inc with _ | m | a | k | _ | _ <;> rfl

/-- C9: `AWSIoTSettings::new` is a pure constructor: each of the five
fields holds exactly the corresponding argument, unchanged. -/
theorem c9_settings_pure (a b c d e : String) :
    (AWSIoTSettings.new a b c d e).client_id = a ∧
    (AWSIoTSettings.new a b c d e).ca_path = b ∧
    (AWSIoTSettings.new a b c d e).client_cert_path = c ∧
    (AWSIoTSettings.new a b c d e).client_key_path = d ∧
    (AWSIoTSettings.new a b c d e).aws_iot_endpoint = e :=
  ⟨rfl, rfl, rfl, rfl, rfl⟩

/-- C10: over any notification stream, the blocking dispatch loop never
invokes `on_puback` — even when the stream contains `PubAck` packets —
and any single notification invokes at most one callback. -/
theorem c10_blocking_no_puback (ns : List Notification) :
    (∀ p, Callback.onPubAck p ∉ start_event_listener ns) ∧
    ∀ n : Notification, (dispatchBlocking n).length ≤ 1 := by
  constructor
  · intro p
    induction ns with
    | nil => simp [start_event_listener]
    | cons n rest ih =>
      simp only [start_event_listener, List.mem_append]
      rintro (h | h)
      · rcases dispatchBlocking_cases n with hc | ⟨m, hc⟩ | hc <;>
          simp [hc] at h
      · exact ih h
  · intro n
    rcases dispatchBlocking_cases n with hc | ⟨m, hc⟩ | hc <;> simp [hc]

/-- C6: in all four wrapper calls (blocking and concurrent subscribe and
publish), a failed underlying send is not returned as an error — the
`Outcome` type has no error value — but aborts the process via the
`.unwrap()` panic, while a successful send returns normally. -/
theorem c6_send_failure_aborts (c : AWSIoTClient) (ac : AWSIoTAsyncClient)
    (topic : String) (qos : QoS) (payload : String) (sendOk : Bool) :
    (c.subscribe topic qos sendOk).2 =
      (if sendOk then Outcome.ret else Outcome.panicked) ∧
    (c.publish topic qos payload sendOk).2 =
      (if sendOk then Outcome.ret else Outcome.panicked) ∧
    (ac.subscribe topic qos sendOk).2 =
      (if sendOk then Outcome.ret else Outcome.panicked) ∧
    (ac.publish topic qos payload sendOk).2 =
      (if sendOk then Outcome.ret else Outcome.panicked) :=
  ⟨rfl, rfl, rfl, rfl⟩

/-- C7: the blocking publish forwards exactly one publish call to the
wrapped client, with the retain flag fixed to `false`. -/
theorem c7_publish_retain_false (c : AWSIoTClient) (topic : String)
    (qos : QoS) (payload : String) (sendOk : Bool) :
    (c.publish topic qos payload sendOk).1 =
      [Effect.libPublish topic qos false (strBytes payload)] := rfl

/-- C8: the concurrent subscribe and publish perform no direct library
network call: each performs exactly one effect, the send of the
corresponding constructed `Request` onto the handle's channel. -/
theorem c8_async_enqueue_only (ac : AWSIoTAsyncClient) (topic : String)
    (qos : QoS) (payload : String) (sendOk : Bool) :
    (ac.subscribe topic qos sendOk).1 =
      [Effect.chanSend (Request.subscribeReq { topic := topic, qos := qos })] ∧
    (ac.publish topic qos payload sendOk).1 =
      [Effect.chanSend (Request.publishReq
        (Publish.new topic qos (strBytes payload)))] :=
  ⟨rfl, rfl⟩

/-- C1: blocking construction is atomic — if reading any of the three
credential files fails, `AWSIoTClient::new` returns an error and no
`(handle, connection)` pair (the `ok` case is impossible); otherwise it
returns exactly one `(handle, connection)` pair (the single value carried
by `Except.ok`). -/
theorem c1_construction_atomic (fs : FS) (s : AWSIoTSettings) :
    if fs s.ca_path = none ∨ fs s.client_cert_path = none ∨
        fs s.client_key_path = none
    then (∃ e, AWSIoTClient.new fs s = Except.error e) ∧
         ∀ p, AWSIoTClient.new fs s ≠ Except.ok p
    else ∃ h c, AWSIoTClient.new fs s = Except.ok (h, c) := by
  rcases hca : fs s.ca_path with _ | ca <;>
    rcases hcert : fs s.client_cert_path with _ | cert <;>
      rcases hkey : fs s.client_key_path with _ | key <;>
        simp [AWSIoTClient.new, read, hca, hcert, hkey, Client.new, exceptBind_ok, exceptBind_error]

/-- C4: when all three credential reads succeed, the blocking constructor
hands the wrapped client constructor exactly the options — TLS port 8883,
the CA/cert/key bytes just read, keep-alive 10 — together with
request-queue capacity 10. -/
theorem c4_options_values (fs : FS) (s : AWSIoTSettings)
    (ca cert key : List Nat) (hca : fs s.ca_path = some ca)
    (hcert : fs s.client_cert_path = some cert)
    (hkey : fs s.client_key_path = some key) :
    AWSIoTClient.new fs s = Except.ok
      ({ client :=
          { opts := { client_id := s.client_id,
                      broker_addr := s.aws_iot_endpoint, port := 8883,
                      ca := some ca, client_cert := some cert,
                      client_key := some key, keep_alive := 10 },
            cap := 10 } },
       { opts := { client_id := s.client_id,
                   broker_addr := s.aws_iot_endpoint, port := 8883,
                   ca := some ca, client_cert := some cert,
                   client_key := some key, keep_alive := 10 },
         cap := 10 }) := by
  simp [AWSIoTClient.new, read, hca, hcert, hkey, Client.new,
        MqttOptions.new, MqttOptions.set_ca, MqttOptions.set_client_auth,
        MqttOptions.set_keep_alive, exceptBind_ok, exceptBind_error]

/-- A concrete file system for exercising the constructors: three distinct
readable credential files. -/
def demoFS : FS := fun path =>
  if path = "ca.pem" then some [1]
  else if path = "cert.pem" then some [2]
  else if path = "key.pem" then some [3]
  else none

/-- Concrete settings pointing at the three files of `demoFS`. -/
def demoSettings : AWSIoTSettings :=
  AWSIoTSettings.new "dev0" "ca.pem" "cert.pem" "key.pem" "endpoint.example"

/-- C4 witness: the constructor evaluated on `demoFS`/`demoSettings`
yields the concrete options (port 8883, bytes `[1]`/`[2]`/`[3]`,
keep-alive 10) and capacity 10. -/
theorem c4_options_values_witness :
    AWSIoTClient.new demoFS demoSettings = Except.ok
      ({ client :=
          { opts := { client_id := "dev0", broker_addr := "endpoint.example",
                      port := 8883, ca := some [1], client_cert := some [2],
                      client_key := some [3], keep_alive := 10 },
            cap := 10 } },
       { opts := { client_id := "dev0", broker_addr := "endpoint.example",
                   port := 8883, ca := some [1], client_cert := some [2],
                   client_key := some [3], keep_alive := 10 },
         cap := 10 }) :=
  c4_options_values demoFS demoSettings [1] [2] [3] rfl rfl rfl

/-- C5 counterexample: the concurrent constructor does not have the same
parameter shape as the blocking one — `AWSIoTAsyncClient::new` takes five
separate string parameters, not one `AWSIoTSettings` value. -/
theorem c5_counterexample :
    AWSIoTAsyncClient.newParams ≠ AWSIoTClient.newParams := by
  decide

/-- C5 (amended): the concurrent constructor returns
`Result<(handle, event-loop object), ConnectionError>` and fails exactly
when the blocking constructor would on the same five values — on any
credential-read failure, atomically — but it takes the five connection
parameters as separate string arguments rather than an `AWSIoTSettings`
value. -/
theorem c5_async_contract (fs : FS)
    (cid ca_path cert_path key_path ep : String) :
    AWSIoTAsyncClient.newParams =
      [ParamKind.strArg, ParamKind.strArg, ParamKind.strArg,
       ParamKind.strArg, ParamKind.strArg] ∧
    (if fs ca_path = none ∨ fs cert_path = none ∨ fs key_path = none
     then (∃ e, AWSIoTAsyncClient.new fs cid ca_path cert_path key_path ep =
            Except.error e) ∧
          ∀ p, AWSIoTAsyncClient.new fs cid ca_path cert_path key_path ep ≠
            Except.ok p
     else ∃ h l, AWSIoTAsyncClient.new fs cid ca_path cert_path key_path ep =
            Except.ok (h, l)) ∧
    ∀ e, (AWSIoTAsyncClient.new fs cid ca_path cert_path key_path ep =
            Except.error e) ↔
         (AWSIoTClient.new fs
            (AWSIoTSettings.new cid ca_path cert_path key_path ep) =
          Except.error e) := by
  refine ⟨rfl, ?_, ?_⟩ <;>
    rcases hca : fs ca_path with _ | ca <;>
      rcases hcert : fs cert_path with _ | cert <;>
        rcases hkey : fs key_path with _ | key <;>
          simp [AWSIoTAsyncClient.new, AWSIoTClient.new, AWSIoTSettings.new,
                read, hca, hcert, hkey, Client.new, EventLoop.new,
                exceptBind_ok, exceptBind_error]

end AwsIot
